import Mathlib

/-!
# Verification of the spanner-cassandra adapter proxy

A shallow embedding of the core of the go-spanner-cassandra adapter: the
global prepared-statement cache (`state.go`), the request executor
(`isDML`, `prepareCassandraAttachments`, `submit`), the metadata
injection (`client.go`), the retry classification (`retry.go`), the
session manager (`getOrRefreshSession`), the response reassembly
(`writeGrpcResponseToTcp`), the Cassandra protocol adapter
(`ExtractKeys`) and the standalone launcher.

Go strings and byte slices are modelled as `List Char` / `List Nat`;
Go maps as association lists; fallible Go code as `Except`; a Go panic
as `Option.none`.
-/

/-- Go strings (and Go byte slices converted with `string(b)`) are
modelled as lists of characters. -/
abbrev Str := List Char

/-- Raw payload bytes. -/
abbrev Bytes := List Nat

/-- Models `strings.HasPrefix s p` from the Go standard library: `s` starts
with `p`. -/
def strStartsWith : Str → Str → Bool
  | _, [] => true
  | [], _ :: _ => false
  | c :: cs, p :: ps => c == p && strStartsWith cs ps

/-- Models `strings.Contains s sub` from the Go standard library: `sub` occurs
as a contiguous substring of `s`. -/
def strContainsSub : Str → Str → Bool
  | [], sub => sub == []
  | c :: rest, sub => strStartsWith (c :: rest) sub || strContainsSub rest sub

/-- Models `strings.ToLower` (ASCII, which is all the adapter compares). -/
def strToLower (s : Str) : Str := s.map Char.toLower

/-! ## Global state (state.go)

The hashicorp LRU cache backing `globalState` is modelled as a
most-recently-used-first association list: `Add` inserts or updates a
key at the front, `Get` looks the key up.  No claim concerns the
eviction bound, so the capacity argument is not modelled. -/

/-- The LRU cache contents, most recently used first. -/
abbrev Cache := List (Str × Str)

/-- Models `lru.Cache.Get`: the value stored under `k`, if any. -/
def cacheGet (c : Cache) (k : Str) : Option Str :=
  (c.find? (fun p => p.1 == k)).map (·.2)

/-- Models `lru.Cache.Add`: insert or update `k`, promoting it to the front. -/
def cacheAdd (c : Cache) (k v : Str) : Cache :=
  (k, v) :: c.filter (fun p => !(p.1 == k))

/-- Models `globalState.Store` (state.go): `d.cache.Add(key, val)`. -/
def globalStateStore (c : Cache) (key val : Str) : Cache :=
  cacheAdd c key val

/-- Models `globalState.Load` (state.go): on a hit returns the cached value and
`true`; on a miss returns the literal string `"nil"` and `false`. -/
def globalStateLoad (c : Cache) (key : Str) : Str × Bool :=
  match cacheGet c key with
  | some v => (v, true)
  | none => ("nil".toList, false)

/-- C9: for every key not present in the global LRU cache, `Load`
returns the literal three-character string "nil" (not the empty string)
as the value, paired with `ok = false`; the value on a miss is never the
empty string. -/
theorem globalStateLoad_miss_returns_nil (c : Cache) (key : Str)
    (h : cacheGet c key = none) :
    globalStateLoad c key = ("nil".toList, false) ∧
      (globalStateLoad c key).1 ≠ [] := by
  constructor
  · simp [globalStateLoad, h]
  · simp [globalStateLoad, h]

/-- Witness for `globalStateLoad_miss_returns_nil`: the empty cache
misses on the key "missing". -/
theorem globalStateLoad_miss_returns_nil_witness :
    globalStateLoad [] "missing".toList = ("nil".toList, false) ∧
      (globalStateLoad [] "missing".toList).1 ≠ [] :=
  globalStateLoad_miss_returns_nil [] "missing".toList rfl

/-! ## Frames and messages (go-cassandra-native-protocol)

Only the message distinctions the adapter inspects are modelled: the
executor switches on `*message.Execute`, `*message.Batch`,
`*message.Query` and treats everything else uniformly, and it
synthesizes `Unprepared`, `ServerError` and `SyntaxError` responses. -/

/-- A child entry of a BATCH message: either an inline query string or a
prepared-statement id (`Query == ""`). -/
structure BatchChild where
  query : Str
  id : Str
  deriving DecidableEq

/-- Frame body messages. -/
inductive Message where
  | execute (queryId : Str)
  | batch (children : List BatchChild)
  | query (q : Str)
  | options
  | startup
  | register
  | prepare (q : Str)
  | unprepared (errorMessage : Str) (id : Str)
  | serverError (errorMessage : Str)
  | synError (errorMessage : Str)
  deriving DecidableEq

/-- The Cassandra v4 opcode of a message (`GetOpCode`). -/
def Message.getOpCode : Message → Nat
  | .execute _ => 0x0A
  | .batch _ => 0x0D
  | .query _ => 0x07
  | .options => 0x05
  | .startup => 0x01
  | .register => 0x0B
  | .prepare _ => 0x09
  | .unprepared _ _ => 0x00
  | .serverError _ => 0x00
  | .synError _ => 0x00

/-- A Cassandra v4 frame header as the codec exposes it. -/
structure Header where
  version : Nat
  flags : Nat
  streamId : Int
  opcode : Nat
  isResponse : Bool
  deriving DecidableEq

/-- A fully decoded frame. -/
structure Frame where
  header : Header
  body : Message
  deriving DecidableEq

/-- Modelled from the spec: the constant `writeActionQueryIdPrefix` is
declared in a source file not included in the sources; the spec and its
glossary give the write-action marker as the single byte `W`
("begins with `W` for writes"), and the unit tests build DML ids as
`writeActionQueryIdPrefix + "test-id-123"` versus `"R" + "test-id-456"`. -/
def writeActionQueryIdPrefix : Str := "W".toList

/-- Models `isDML` (executor.go): EXECUTE is DML iff the query id starts with
the write-action marker, BATCH is always DML, QUERY is DML iff the
lowercased query does not start with "select", everything else is not. -/
def isDML (f : Frame) : Bool :=
  match f.body with
  | .execute queryId => strStartsWith queryId writeActionQueryIdPrefix
  | .batch _ => true
  | .query q => !(strStartsWith (strToLower q) "select".toList)
  | _ => false

/-- The DML classification exactly as the spec words it (for claim C3):
for EXECUTE, "the first byte of the prepared-id equals the write-action
prefix byte `W`". -/
def isDMLSpecSide (f : Frame) : Bool :=
  match f.body with
  | .execute queryId => queryId.head? == some 'W'
  | .batch _ => true
  | .query q => !(strStartsWith (strToLower q) "select".toList)
  | _ => false

/-- C3: for every decoded inbound frame the DML classifier returns: for
QUERY, true iff the lowercased query text does not start with "select";
for BATCH, always true; for EXECUTE, true iff the first byte of the
prepared-id equals the write-action prefix byte `W`; for every other
opcode, false. -/
theorem isDML_matches_spec (f : Frame) : isDML f = isDMLSpecSide f := by
  rcases f with ⟨h, b⟩
  cases b with
  | execute queryId =>
    cases queryId with
    | nil => rfl
    | cons c cs =>
      show (c == 'W' && strStartsWith cs []) = (c == 'W')
      simp [strStartsWith]
  | batch children => rfl
  | query q => rfl
  | options => rfl
  | startup => rfl
  | register => rfl
  | prepare q => rfl
  | unprepared e i => rfl
  | serverError e => rfl
  | synError e => rfl

/-! ## Outbound metadata (client.go / executor.go) -/

/-- gRPC metadata (`metadata.MD`), modelled as a list of key/value
pairs; `metadata.Join` concatenates. -/
abbrev MD := List (Str × Str)

/-- Models `resourcePrefixHeader` (client.go). -/
def resourcePrefixHeader : Str := "google-cloud-resource-prefix".toList

/-- Models `routeToLeaderHeader` (client.go). -/
def routeToLeaderHeader : Str := "x-goog-spanner-route-to-leader".toList

/-- Models `contextWithOutgoingMetadata` (client.go): joins `md` onto whatever
outgoing metadata the context already carries, then appends the
route-to-leader pair when `enableRouteToLeader` is set. -/
def contextWithOutgoingMetadata (existing : Option MD) (md : MD)
    (enableRouteToLeader : Bool) : MD :=
  let md' := match existing with
    | some e => e ++ md
    | none => md
  if enableRouteToLeader then md' ++ [(routeToLeaderHeader, "true".toList)]
  else md'

/-- The metadata `submit` (executor.go) attaches to the `AdaptMessage`
call: the client metadata is the single resource-prefix pair built in
`newAdapterClient`, and the context reaching `handleConnection` is
`context.Background()` (tcp.go), which carries no outgoing metadata;
`handleConnection` passes `isDML(frame)` for `enableRouteToLeader`. -/
def submitMetadata (databaseUri : Str) (enableRouteToLeader : Bool) : MD :=
  contextWithOutgoingMetadata none [(resourcePrefixHeader, databaseUri)]
    enableRouteToLeader

/-- C4: the outbound gRPC metadata of a submitted frame contains the
pair `x-goog-spanner-route-to-leader: true` if and only if the frame is
classified as DML, and for non-DML frames it carries no route-to-leader
header at all. -/
theorem submitMetadata_routeToLeader_iff_isDML (databaseUri : Str) (f : Frame) :
    ((routeToLeaderHeader, "true".toList) ∈ submitMetadata databaseUri (isDML f)
      ↔ isDML f = true) ∧
    (isDML f = false →
      ∀ v, (routeToLeaderHeader, v) ∉ submitMetadata databaseUri (isDML f)) := by
  have hne : routeToLeaderHeader ≠ resourcePrefixHeader := by decide
  cases hd : isDML f with
  | true =>
    refine ⟨⟨fun _ => rfl, fun _ => ?_⟩, fun hc => by simp at hc⟩
    simp [submitMetadata, contextWithOutgoingMetadata]
  | false =>
    refine ⟨⟨fun hmem => ?_, fun hc => by simp at hc⟩, fun _ v hmem => ?_⟩
    · simp [submitMetadata, contextWithOutgoingMetadata] at hmem
      exact absurd hmem.1 hne
    · simp [submitMetadata, contextWithOutgoingMetadata] at hmem
      exact absurd hmem.1 hne

/-- Witness for `submitMetadata_routeToLeader_iff_isDML`: an OPTIONS
frame is not DML and its call carries no route-to-leader pair. -/
theorem submitMetadata_routeToLeader_iff_isDML_witness :
    (routeToLeaderHeader, "true".toList) ∉
      submitMetadata "projects/p/instances/i/databases/d".toList
        (isDML ⟨⟨4, 0, 1, 0x05, false⟩, .options⟩) :=
  (submitMetadata_routeToLeader_iff_isDML
    "projects/p/instances/i/databases/d".toList
    ⟨⟨4, 0, 1, 0x05, false⟩, .options⟩).2 rfl "true".toList

/-! ## Request executor attachments (executor.go) -/

/-- Attachment maps (Go `map[string]string`), as association lists;
`mapSet` is Go map assignment `m[k] = v`. -/
abbrev Attachments := List (Str × Str)

/-- Go map assignment: replace any existing entry for `k`. -/
def mapSet (m : Attachments) (k v : Str) : Attachments :=
  m.filter (fun p => !(p.1 == k)) ++ [(k, v)]

/-- Models `preparedQueryIdAttachmentPrefix` (state.go). -/
def preparedQueryIdAttachmentPrefix : Str := "pqid/".toList

/-- Modelled from the spec: the attachment-key constant `maxCommitDelay`
is declared in a source file not included in the sources; the spec gives
the key as `"max_commit_delay"`. -/
def maxCommitDelay : Str := "max_commit_delay".toList

/-- Models `strconv.Itoa`. -/
def strconvItoa (n : Int) : Str := (toString n).toList

/-- The executor-relevant fields of `Options` (options.go). -/
structure Options where
  DatabaseUri : Str
  MaxCommitDelay : Int
  DisableAdaptMessageRetry : Bool

/-- Models `tryInsertAttachment` (executor.go): look `"pqid/" + queryID` up in
the global state; on a hit add the `(key, value)` pair to the
attachments, on a miss return an `Unprepared` message with the id. -/
def tryInsertAttachment (gs : Cache) (queryID : Str)
    (attachments : Attachments) : Except Message Attachments :=
  let key := preparedQueryIdAttachmentPrefix ++ queryID
  let r := globalStateLoad gs key
  if r.2 then .ok (mapSet attachments key r.1)
  else .error (.unprepared "Unknown prepared query in client side cache".toList
    queryID)

/-- The child loop of the BATCH case of `prepareCassandraAttachments`:
only children with an empty query string get a cache lookup, and the
first miss aborts the whole batch. -/
def prepareBatchChildren (gs : Cache) :
    List BatchChild → Attachments → Except Message Attachments
  | [], attachments => .ok attachments
  | child :: rest, attachments =>
    if child.query == [] then
      match tryInsertAttachment gs child.id attachments with
      | .error m => .error m
      | .ok attachments' => prepareBatchChildren gs rest attachments'
    else prepareBatchChildren gs rest attachments

/-- Models `prepareCassandraAttachments` (executor.go).  Returns the attachment
map now carried by `req.pb` (`none` when the frame is neither EXECUTE
nor BATCH, in which case the map is never initialized), or the
driver-visible error message. -/
def prepareCassandraAttachments (gs : Cache) (opts : Options) (f : Frame) :
    Except Message (Option Attachments) :=
  match f.body with
  | .execute queryId =>
    let attachments : Attachments := []
    let attachments :=
      if opts.MaxCommitDelay > 0 && isDML f then
        mapSet attachments maxCommitDelay (strconvItoa opts.MaxCommitDelay)
      else attachments
    match tryInsertAttachment gs queryId attachments with
    | .error m => .error m
    | .ok attachments => .ok (some attachments)
  | .batch children =>
    let attachments : Attachments := []
    let attachments :=
      if opts.MaxCommitDelay > 0 then
        mapSet attachments maxCommitDelay (strconvItoa opts.MaxCommitDelay)
      else attachments
    match prepareBatchChildren gs children attachments with
    | .error m => .error m
    | .ok attachments => .ok (some attachments)
  | _ => .ok none

/-- The `AdaptMessageRequest` proto built in `handleConnection`
(state.go): session name, protocol name, raw payload bytes, and the
attachments added by the executor. -/
structure AdaptMessageRequest where
  name : Str
  protocol : Str
  payload : Bytes
  attachments : Option Attachments

/-- The frame `writeMessageBackToTcp` (state.go) writes: same stream id,
response direction set, the message's opcode, flags cleared. -/
structure TcpResponse where
  streamId : Int
  opcode : Nat
  flags : Nat
  isResponse : Bool
  msg : Message

/-- Models `writeMessageBackToTcp` (state.go). -/
def writeMessageBackToTcp (h : Header) (msg : Message) : TcpResponse :=
  { streamId := h.streamId
    opcode := msg.getOpCode
    flags := 0
    isResponse := true
    msg := msg }

/-- What `handleConnection` (state.go) decides for a decoded frame after
the session is obtained: either a locally constructed error message is
written back to the driver and every gRPC call is skipped, or the
`AdaptMessage` RPC is issued (with `isDML` steering route-to-leader). -/
inductive FrameOutcome where
  | errorResponse (resp : TcpResponse)
  | rpcIssued (req : AdaptMessageRequest) (routeToLeader : Bool)

/-- The attachment-preparation/submission step of `handleConnection`
(state.go). -/
def handleFrameRpcDecision (gs : Cache) (opts : Options) (sessionName : Str)
    (payload : Bytes) (f : Frame) : FrameOutcome :=
  match prepareCassandraAttachments gs opts f with
  | .error errMsg => .errorResponse (writeMessageBackToTcp f.header errMsg)
  | .ok attachments =>
    .rpcIssued
      { name := sessionName
        protocol := "cassandra".toList
        payload := payload
        attachments := attachments }
      (isDML f)

/-! ### Lemmas about the attachment preparation -/

theorem globalStateLoad_hit {gs : Cache} {k v : Str}
    (h : cacheGet gs k = some v) : globalStateLoad gs k = (v, true) := by
  simp [globalStateLoad, h]

theorem globalStateLoad_missing {gs : Cache} {k : Str}
    (h : cacheGet gs k = none) : globalStateLoad gs k = ("nil".toList, false) := by
  simp [globalStateLoad, h]

theorem tryInsertAttachment_hit {gs : Cache} {qid v : Str} (m : Attachments)
    (h : cacheGet gs (preparedQueryIdAttachmentPrefix ++ qid) = some v) :
    tryInsertAttachment gs qid m =
      .ok (mapSet m (preparedQueryIdAttachmentPrefix ++ qid) v) := by
  simp [tryInsertAttachment, globalStateLoad_hit h]

theorem tryInsertAttachment_missing {gs : Cache} {qid : Str} (m : Attachments)
    (h : cacheGet gs (preparedQueryIdAttachmentPrefix ++ qid) = none) :
    tryInsertAttachment gs qid m =
      .error (.unprepared "Unknown prepared query in client side cache".toList
        qid) := by
  simp [tryInsertAttachment, globalStateLoad_missing h]

theorem mem_mapSet_self (m : Attachments) (k v : Str) : (k, v) ∈ mapSet m k v := by
  simp [mapSet]

theorem mem_mapSet_of_ne {m : Attachments} {k v : Str} (hm : (k, v) ∈ m)
    {k' : Str} (hne : k ≠ k') (v' : Str) : (k, v) ∈ mapSet m k' v' :=
  List.mem_append_left _ (List.mem_filter.mpr ⟨hm, by simp [hne]⟩)

theorem tryInsertAttachment_preserves {gs : Cache} {k hsh : Str}
    (hk : cacheGet gs k = some hsh) {qid : Str} {m m' : Attachments}
    (hmem : (k, hsh) ∈ m)
    (h : tryInsertAttachment gs qid m = .ok m') : (k, hsh) ∈ m' := by
  cases hload : cacheGet gs (preparedQueryIdAttachmentPrefix ++ qid) with
  | none =>
    rw [tryInsertAttachment_missing m hload] at h
    exact absurd h (by simp)
  | some v =>
    rw [tryInsertAttachment_hit m hload] at h
    have hm' : m' = mapSet m (preparedQueryIdAttachmentPrefix ++ qid) v := by
      injection h with h'
      exact h'.symm
    subst hm'
    by_cases hkey : preparedQueryIdAttachmentPrefix ++ qid = k
    · rw [hkey] at hload ⊢
      rw [hk] at hload
      have hv : hsh = v := Option.some.inj hload
      subst hv
      exact mem_mapSet_self m k hsh
    · exact mem_mapSet_of_ne hmem (fun he => hkey he.symm) v

theorem prepareBatchChildren_preserves {gs : Cache} {k hsh : Str}
    (hk : cacheGet gs k = some hsh) (cs : List BatchChild) :
    ∀ {m m' : Attachments}, (k, hsh) ∈ m →
      prepareBatchChildren gs cs m = .ok m' → (k, hsh) ∈ m' := by
  induction cs with
  | nil =>
    intro m m' hmem h
    injection h with h'
    exact h' ▸ hmem
  | cons c0 rest ih =>
    intro m m' hmem h
    simp only [prepareBatchChildren] at h
    by_cases hq : c0.query == []
    · rw [if_pos hq] at h
      cases htry : tryInsertAttachment gs c0.id m with
      | error e => rw [htry] at h; exact absurd h (by simp)
      | ok m1 =>
        rw [htry] at h
        exact ih (tryInsertAttachment_preserves hk hmem htry) h
    · rw [if_neg hq] at h
      exact ih hmem h

theorem prepareBatchChildren_inserts {gs : Cache} (cs : List BatchChild) :
    ∀ {m m' : Attachments}, prepareBatchChildren gs cs m = .ok m' →
      ∀ c ∈ cs, c.query = [] →
        ∀ hsh, cacheGet gs (preparedQueryIdAttachmentPrefix ++ c.id) = some hsh →
          (preparedQueryIdAttachmentPrefix ++ c.id, hsh) ∈ m' := by
  induction cs with
  | nil =>
    intro m m' _ c hc
    exact absurd hc (List.not_mem_nil c)
  | cons c0 rest ih =>
    intro m m' h c hc hq hsh hget
    simp only [prepareBatchChildren] at h
    rcases List.mem_cons.mp hc with rfl | hc'
    · rw [if_pos (by simp [hq])] at h
      cases htry : tryInsertAttachment gs c.id m with
      | error e => rw [htry] at h; exact absurd h (by simp)
      | ok m1 =>
        rw [htry] at h
        have h2 := tryInsertAttachment_hit m hget
        rw [htry] at h2
        injection h2 with h2'
        exact prepareBatchChildren_preserves hget rest
          (h2' ▸ mem_mapSet_self m _ hsh) h
    · by_cases hq0 : c0.query == []
      · rw [if_pos hq0] at h
        cases htry : tryInsertAttachment gs c0.id m with
        | error e => rw [htry] at h; exact absurd h (by simp)
        | ok m1 =>
          rw [htry] at h
          exact ih h c hc' hq hsh hget
      · rw [if_neg hq0] at h
        exact ih h c hc' hq hsh hget

theorem prepareBatchChildren_allHits (gs : Cache) :
    ∀ (cs : List BatchChild),
      (∀ c ∈ cs, c.query = [] →
        ∃ hsh, cacheGet gs (preparedQueryIdAttachmentPrefix ++ c.id) = some hsh) →
      ∀ (m : Attachments), ∃ m', prepareBatchChildren gs cs m = .ok m' := by
  intro cs
  induction cs with
  | nil => exact fun _ m => ⟨m, rfl⟩
  | cons c0 rest ih =>
    intro hall m
    simp only [prepareBatchChildren]
    by_cases hq : c0.query = []
    · obtain ⟨hsh, hget⟩ := hall c0 (List.mem_cons_self c0 rest) hq
      rw [if_pos (by simp [hq]), tryInsertAttachment_hit m hget]
      exact ih (fun c hc => hall c (List.mem_cons_of_mem _ hc)) _
    · rw [if_neg (by simp [hq])]
      exact ih (fun c hc => hall c (List.mem_cons_of_mem _ hc)) m

theorem prepareBatchChildren_firstMiss {gs : Cache}
    {c : BatchChild} (post : List BatchChild) (hq : c.query = [])
    (hmiss : cacheGet gs (preparedQueryIdAttachmentPrefix ++ c.id) = none) :
    ∀ (pre : List BatchChild),
      (∀ c' ∈ pre, c'.query = [] →
        ∃ hsh, cacheGet gs (preparedQueryIdAttachmentPrefix ++ c'.id) = some hsh) →
      ∀ (m : Attachments),
        prepareBatchChildren gs (pre ++ c :: post) m =
          .error (.unprepared
            "Unknown prepared query in client side cache".toList c.id) := by
  intro pre
  induction pre with
  | nil =>
    intro _ m
    simp only [List.nil_append, prepareBatchChildren]
    rw [if_pos (by simp [hq]), tryInsertAttachment_missing m hmiss]
  | cons c0 rest ih =>
    intro hall m
    simp only [List.cons_append, prepareBatchChildren]
    by_cases hq0 : c0.query = []
    · obtain ⟨hsh, hget⟩ := hall c0 (List.mem_cons_self c0 rest) hq0
      rw [if_pos (by simp [hq0]), tryInsertAttachment_hit m hget]
      exact ih (fun c' hc' => hall c' (List.mem_cons_of_mem _ hc')) _
    · rw [if_neg (by simp [hq0])]
      exact ih (fun c' hc' => hall c' (List.mem_cons_of_mem _ hc')) m

/-- C2: for every inbound EXECUTE frame, and for every BATCH child entry
with an empty query string, the executor looks up `"pqid/" + id` in the
global cache; if every lookup hits, the `(key, hash)` pairs are copied
into the outbound request's attachments and the `AdaptMessage` RPC is
issued; on the first miss an `Unprepared` message carrying the missing
id is written back on the same stream (flags cleared) and no RPC is
issued for that frame. -/
theorem handleFrame_unprepared_contract (gs : Cache) (opts : Options)
    (sessionName : Str) (payload : Bytes) (h : Header) :
    (∀ queryId hsh,
      cacheGet gs (preparedQueryIdAttachmentPrefix ++ queryId) = some hsh →
      ∃ attachments,
        handleFrameRpcDecision gs opts sessionName payload
            ⟨h, .execute queryId⟩ =
          .rpcIssued ⟨sessionName, "cassandra".toList, payload,
            some attachments⟩ (isDML ⟨h, .execute queryId⟩) ∧
        (preparedQueryIdAttachmentPrefix ++ queryId, hsh) ∈ attachments) ∧
    (∀ queryId,
      cacheGet gs (preparedQueryIdAttachmentPrefix ++ queryId) = none →
      handleFrameRpcDecision gs opts sessionName payload
          ⟨h, .execute queryId⟩ =
        .errorResponse ⟨h.streamId, 0x00, 0, true,
          .unprepared "Unknown prepared query in client side cache".toList
            queryId⟩) ∧
    (∀ children,
      (∀ c ∈ children, c.query = [] →
        ∃ hsh, cacheGet gs (preparedQueryIdAttachmentPrefix ++ c.id) =
          some hsh) →
      ∃ attachments,
        handleFrameRpcDecision gs opts sessionName payload
            ⟨h, .batch children⟩ =
          .rpcIssued ⟨sessionName, "cassandra".toList, payload,
            some attachments⟩ (isDML ⟨h, .batch children⟩) ∧
        ∀ c ∈ children, c.query = [] →
          ∀ hsh, cacheGet gs (preparedQueryIdAttachmentPrefix ++ c.id) =
              some hsh →
            (preparedQueryIdAttachmentPrefix ++ c.id, hsh) ∈ attachments) ∧
    (∀ pre c post,
      (∀ c' ∈ pre, c'.query = [] →
        ∃ hsh, cacheGet gs (preparedQueryIdAttachmentPrefix ++ c'.id) =
          some hsh) →
      c.query = [] →
      cacheGet gs (preparedQueryIdAttachmentPrefix ++ c.id) = none →
      handleFrameRpcDecision gs opts sessionName payload
          ⟨h, .batch (pre ++ c :: post)⟩ =
        .errorResponse ⟨h.streamId, 0x00, 0, true,
          .unprepared "Unknown prepared query in client side cache".toList
            c.id⟩) := by
  refine ⟨?_, ?_, ?_, ?_⟩
  · intro queryId hsh hget
    simp only [handleFrameRpcDecision, prepareCassandraAttachments]
    rw [tryInsertAttachment_hit _ hget]
    exact ⟨_, rfl, mem_mapSet_self _ _ hsh⟩
  · intro queryId hmiss
    simp only [handleFrameRpcDecision, prepareCassandraAttachments]
    rw [tryInsertAttachment_missing _ hmiss]
    rfl
  · intro children hall
    obtain ⟨m', hok⟩ := prepareBatchChildren_allHits gs children hall
      (if opts.MaxCommitDelay > 0 then
        mapSet [] maxCommitDelay (strconvItoa opts.MaxCommitDelay)
      else [])
    simp only [handleFrameRpcDecision, prepareCassandraAttachments]
    rw [hok]
    exact ⟨m', rfl, prepareBatchChildren_inserts children hok⟩
  · intro pre c post hall hq hmiss
    simp only [handleFrameRpcDecision, prepareCassandraAttachments]
    rw [prepareBatchChildren_firstMiss post hq hmiss pre hall _]
    rfl

/-- Witness for `handleFrame_unprepared_contract`: an EXECUTE against
the empty cache misses and yields the `Unprepared` response with the
missing id, on stream 1, with flags 0, and no RPC. -/
theorem handleFrame_unprepared_contract_witness :
    handleFrameRpcDecision [] ⟨"db".toList, 0, false⟩ "s".toList []
        ⟨⟨4, 0, 1, 0x0A, false⟩, .execute "Wid".toList⟩ =
      .errorResponse ⟨1, 0x00, 0, true,
        .unprepared "Unknown prepared query in client side cache".toList
          "Wid".toList⟩ :=
  (handleFrame_unprepared_contract [] ⟨"db".toList, 0, false⟩ "s".toList []
    ⟨4, 0, 1, 0x0A, false⟩).2.1 "Wid".toList rfl

/-! ## Session manager (client.go) -/

/-- Models `SessionRefreshTimeInterval` (client.go): `6 * 24 * time.Hour`,
as a Go `time.Duration` in nanoseconds. -/
def SessionRefreshTimeInterval : Int := 6 * 24 * 60 * 60 * 1000000000

/-- An adapter session (client.go): name and creation time, the latter
as nanoseconds since the epoch. -/
structure Session where
  name : Str
  createTime : Int
  deriving DecidableEq

/-- Models `createSession` (client.go), with the final outcome of the retried
`CreateSession` RPC passed explicitly (`.ok name` = the response name,
`.error e` = the error after the retry loop gave up): on success
`setSession` stores `{resp.Name, createTime}` where `createTime` was
read just before the call; on failure nothing is stored.  Returns the
stored session afterwards together with the error result. -/
def createSession (stored : Session) (now : Int)
    (rpcResult : Except Str Str) : Session × Except Str Unit :=
  match rpcResult with
  | .ok name => ({ name := name, createTime := now }, .ok ())
  | .error e => (stored, .error e)

/-- Models `getOrRefreshSession` (client.go): return the stored session unless
`time.Now()` is after `createTime + SessionRefreshTimeInterval`, in
which case re-issue `CreateSession` and return the freshly stored
session, or the error (leaving the stored session untouched). -/
def getOrRefreshSession (stored : Session) (now : Int)
    (rpcResult : Except Str Str) : Session × Except Str Session :=
  if now > stored.createTime + SessionRefreshTimeInterval then
    match createSession stored now rpcResult with
    | (stored', .ok _) => (stored', .ok stored')
    | (stored', .error e) => (stored', .error e)
  else (stored, .ok stored)

/-- C6: if the current time is not after `createTime` plus the 6-day
refresh interval the stored session is returned unchanged; otherwise
`CreateSession` is re-issued and the new `{name, createTime}` replaces
the stored session and is returned; if the re-issue fails the error is
returned and the previously stored session value is unchanged. -/
theorem getOrRefreshSession_contract (stored : Session) (now : Int)
    (rpcResult : Except Str Str) :
    (¬ now > stored.createTime + SessionRefreshTimeInterval →
      getOrRefreshSession stored now rpcResult = (stored, .ok stored)) ∧
    (now > stored.createTime + SessionRefreshTimeInterval →
      (∀ name, rpcResult = .ok name →
        getOrRefreshSession stored now rpcResult =
          (⟨name, now⟩, .ok ⟨name, now⟩)) ∧
      (∀ e, rpcResult = .error e →
        getOrRefreshSession stored now rpcResult = (stored, .error e))) := by
  refine ⟨fun hle => ?_, fun hgt => ⟨fun name hrpc => ?_, fun e hrpc => ?_⟩⟩
  · simp [getOrRefreshSession, hle]
  · simp [getOrRefreshSession, createSession, hgt, hrpc]
  · simp [getOrRefreshSession, createSession, hgt, hrpc]

/-- Witness for `getOrRefreshSession_contract`: a session created at
time 0 queried one nanosecond past the refresh interval is refreshed,
and the new session replaces the stored one. -/
theorem getOrRefreshSession_contract_witness :
    getOrRefreshSession ⟨"old".toList, 0⟩ 518400000000001
        (.ok "refreshed-session".toList) =
      (⟨"refreshed-session".toList, 518400000000001⟩,
        .ok ⟨"refreshed-session".toList, 518400000000001⟩) :=
  ((getOrRefreshSession_contract ⟨"old".toList, 0⟩ 518400000000001
    (.ok "refreshed-session".toList)).2 (by decide)).1
    "refreshed-session".toList rfl

/-! ## Response reassembly (state.go) -/

/-- One `AdaptMessageResponse` chunk: the `state_updates` map (as a list
of pairs in iteration order) and the optional payload bytes. -/
structure AdaptMessageResponse where
  stateUpdates : List (Str × Str)
  payload : Option Bytes

/-- The externally visible actions `writeGrpcResponseToTcp` performs, in
order: a `Store` into the global cache, or a write to the TCP socket. -/
inductive TcpAction where
  | storeState (key val : Str)
  | tcpWrite (b : Bytes)

/-- The cache stores performed for one received chunk. -/
def chunkActions (r : AdaptMessageResponse) : List TcpAction :=
  r.stateUpdates.map (fun p => .storeState p.1 p.2)

/-- The receive loop of `writeGrpcResponseToTcp` (state.go): for each
chunk in arrival order, store its state updates into the global cache
and collect its payload when present; stop at the terminator
(`none` = `io.EOF`, `some e` = a failing `Recv`). -/
def recvLoop : List AdaptMessageResponse → Option Str →
    List TcpAction × List Bytes × Option Str
  | [], term => ([], [], term)
  | r :: rest, term =>
    let acc := recvLoop rest term
    (chunkActions r ++ acc.1,
     (match r.payload with
      | some p => p :: acc.2.1
      | none => acc.2.1),
     acc.2.2)

/-- The payload merge of `writeGrpcResponseToTcp` (state.go): no
payloads → nothing to write; exactly one → it is written verbatim;
more → the last payload followed by all preceding ones in order. -/
def mergePayloads : List Bytes → Option Bytes
  | [] => none
  | [p] => some p
  | ps => some (ps.getLastD [] ++ (ps.dropLast).flatten)

/-- Models `writeGrpcResponseToTcp` (state.go): the ordered external actions it
performs and its return value.  On a `Recv` error it returns the error
immediately, with the stores of the already received chunks done and
nothing written to the socket; on EOF it writes the merged payload (if
any) in a single write. -/
def writeGrpcResponseToTcp (chunks : List AdaptMessageResponse)
    (term : Option Str) : List TcpAction × Except Str Unit :=
  let acc := recvLoop chunks term
  match acc.2.2 with
  | some e => (acc.1, .error e)
  | none =>
    match mergePayloads acc.2.1 with
    | none => (acc.1, .ok ())
    | some b => (acc.1 ++ [.tcpWrite b], .ok ())

/-- The response-phase error handling of `handleConnection` (state.go):
if `writeGrpcResponseToTcp` failed, a `ServerError` carrying the error
text is written back on the request's stream. -/
def handleGrpcResponse (h : Header) (chunks : List AdaptMessageResponse)
    (term : Option Str) : List TcpAction × Option TcpResponse :=
  match writeGrpcResponseToTcp chunks term with
  | (acts, .ok _) => (acts, none)
  | (acts, .error e) => (acts, some (writeMessageBackToTcp h (.serverError e)))

/-- The byte sequences written to the TCP socket among a list of
actions. -/
def writesOf (acts : List TcpAction) : List Bytes :=
  acts.filterMap (fun a => match a with
    | .tcpWrite b => some b
    | .storeState _ _ => none)

theorem recvLoop_eq (chunks : List AdaptMessageResponse) (term : Option Str) :
    recvLoop chunks term =
      ((chunks.map chunkActions).flatten, chunks.filterMap (·.payload), term) := by
  induction chunks with
  | nil => simp [recvLoop]
  | cons r rest ih =>
    simp only [recvLoop, ih, List.map_cons, List.flatten_cons, List.filterMap_cons]
    cases r.payload <;> simp

theorem writesOf_append (a b : List TcpAction) :
    writesOf (a ++ b) = writesOf a ++ writesOf b := by
  simp [writesOf]

theorem writesOf_chunkStores (chunks : List AdaptMessageResponse) :
    writesOf ((chunks.map chunkActions).flatten) = [] := by
  induction chunks with
  | nil => rfl
  | cons r rest ih =>
    simp only [List.map_cons, List.flatten_cons, writesOf_append, ih,
      List.append_nil]
    simp [writesOf, chunkActions, List.filterMap_map, Function.comp]

theorem mergePayloads_ge_two : ∀ (ps : List Bytes), 2 ≤ ps.length →
    mergePayloads ps = some (ps.getLastD [] ++ ps.dropLast.flatten)
  | [], h => absurd h (by simp)
  | [_], h => absurd h (by simp)
  | _ :: _ :: _, _ => rfl

/-- C1: for every drained `AdaptMessage` response stream with chunk
payloads `p_0..p_{n-1}` in arrival order: nothing is written when
`n = 0`; `p_0` is written verbatim when `n = 1`; and when `n > 1` the
byte sequence `p_{n-1} ++ p_0 ++ … ++ p_{n-2}` is written as a single
write. -/
theorem reassembly_law (chunks : List AdaptMessageResponse) :
    (chunks.filterMap (·.payload) = [] →
      writesOf (writeGrpcResponseToTcp chunks none).1 = []) ∧
    (∀ p, chunks.filterMap (·.payload) = [p] →
      writesOf (writeGrpcResponseToTcp chunks none).1 = [p]) ∧
    (∀ ini lst, chunks.filterMap (·.payload) = ini ++ [lst] → ini ≠ [] →
      writesOf (writeGrpcResponseToTcp chunks none).1 =
        [lst ++ ini.flatten]) := by
  have hw : ∀ w, mergePayloads (chunks.filterMap (·.payload)) = w →
      writesOf (writeGrpcResponseToTcp chunks none).1 =
        (match w with | none => [] | some b => [b]) := by
    intro w hmerge
    simp only [writeGrpcResponseToTcp, recvLoop_eq, hmerge]
    cases w with
    | none => simp [writesOf_chunkStores]
    | some b =>
      rw [writesOf_append, writesOf_chunkStores]
      rfl
  refine ⟨fun h0 => ?_, fun p h1 => ?_, fun ini lst h2 hne => ?_⟩
  · exact hw none (by rw [h0]; rfl)
  · exact hw (some p) (by rw [h1]; rfl)
  · have hlen : 2 ≤ (chunks.filterMap (·.payload)).length := by
      rw [h2]
      rcases ini with _ | ⟨a, t⟩
      · exact absurd rfl hne
      · simp
    have hmerge := mergePayloads_ge_two _ hlen
    rw [h2, List.getLastD_concat, List.dropLast_concat] at hmerge
    rw [← h2] at hmerge
    exact hw _ hmerge

/-- Witness for `reassembly_law`: three single-payload chunks `[1]`,
`[2]`, `[3]` are reassembled into the single write `[3, 1, 2]`. -/
theorem reassembly_law_witness :
    writesOf (writeGrpcResponseToTcp
      [⟨[], some [1]⟩, ⟨[], some [2]⟩, ⟨[], some [3]⟩] none).1 =
      [[3] ++ ([[1], [2]] : List Bytes).flatten] :=
  (reassembly_law [⟨[], some [1]⟩, ⟨[], some [2]⟩, ⟨[], some [3]⟩]).2.2
    [[1], [2]] [3] rfl (by simp)

/-- C10: while draining a response stream, all state updates of the
received chunks are stored into the global cache before anything is
written to the TCP socket; when a later `Recv` fails, those stores are
exactly the stores of all chunks received so far (no rollback), nothing
is written to the socket, the error is returned, and a `ServerError`
frame is then written back to the driver on the request's stream. -/
theorem stateUpdates_stored_before_write (h : Header)
    (chunks : List AdaptMessageResponse) (e : Str) :
    ((writeGrpcResponseToTcp chunks (some e)).1 =
        (chunks.map chunkActions).flatten ∧
      (writeGrpcResponseToTcp chunks (some e)).2 = .error e ∧
      writesOf (writeGrpcResponseToTcp chunks (some e)).1 = [] ∧
      handleGrpcResponse h chunks (some e) =
        ((chunks.map chunkActions).flatten,
          some ⟨h.streamId, 0x00, 0, true, .serverError e⟩)) ∧
    ∀ term, ∃ ws : List Bytes, (writeGrpcResponseToTcp chunks term).1 =
      (chunks.map chunkActions).flatten ++ ws.map TcpAction.tcpWrite := by
  have herr : writeGrpcResponseToTcp chunks (some e) =
      ((chunks.map chunkActions).flatten, .error e) := by
    simp [writeGrpcResponseToTcp, recvLoop_eq]
  refine ⟨⟨by rw [herr], by rw [herr], ?_, ?_⟩, ?_⟩
  · rw [herr]
    exact writesOf_chunkStores chunks
  · simp [handleGrpcResponse, herr, writeMessageBackToTcp]
    rfl
  · intro term
    cases term with
    | some e' => exact ⟨[], by simp [writeGrpcResponseToTcp, recvLoop_eq]⟩
    | none =>
      simp only [writeGrpcResponseToTcp, recvLoop_eq]
      cases hmerge : mergePayloads (chunks.filterMap (·.payload)) with
      | none => exact ⟨[], by simp⟩
      | some b => exact ⟨[b], by simp⟩

/-! ## Retry classification (retry.go) -/

/-- gRPC status codes. -/
inductive Code where
  | ok
  | cancelled
  | unknown
  | invalidArgument
  | deadlineExceeded
  | notFound
  | alreadyExists
  | permissionDenied
  | resourceExhausted
  | failedPrecondition
  | aborted
  | outOfRange
  | unimplemented
  | internal
  | unavailable
  | dataLoss
  | unauthenticated
  deriving DecidableEq

/-- A gRPC status error: code, rendered error text, and the structured
`RetryInfo` delay attached by the server, if any (nanoseconds). -/
structure StatusErr where
  code : Code
  text : Str
  retryDelay : Option Int
  deriving DecidableEq

/-- The four stream-termination signatures of `adapterRetryer.Retry`. -/
def sigRstStream : Str := "stream terminated by RST_STREAM".toList

def sigHttp2Internal : Str := "HTTP/2 error code: INTERNAL_ERROR".toList

def sigConnClosed : Str := "Connection closed with unknown cause".toList

def sigEosData : Str :=
  "Received unexpected EOS on DATA frame from server".toList

/-- Models `gax.OnCodes`: the wrapped generic retryer retries exactly when the
status code is one of the configured codes (per its documentation and
the source comment "will retry on the specified error codes"). -/
def gaxOnCodesShouldRetry (cc : List Code) (e : StatusErr) : Bool :=
  cc.contains e.code

/-- Models `adapterRetryer.Retry` (retry.go): an `Internal` error whose text
contains none of the four stream-termination signatures is not retried;
otherwise the generic retryer decides from the configured codes, and any
server-provided retry delay overrides the backoff pause. -/
def adapterRetryerRetry (cc : List Code) (backoffPause : Int)
    (e : StatusErr) : Int × Bool :=
  if e.code == .internal
      && !(strContainsSub e.text sigRstStream)
      && !(strContainsSub e.text sigHttp2Internal)
      && !(strContainsSub e.text sigConnClosed)
      && !(strContainsSub e.text sigEosData) then
    (0, false)
  else
    if gaxOnCodesShouldRetry cc e then
      match e.retryDelay with
      | some d => (d, true)
      | none => (backoffPause, true)
    else (0, false)

/-- The codes `RunCreateAdapterSessionWithRetry` and
`RunAdaptMessageWithRetry` (retry.go) both configure. -/
def adapterRetryCodes : List Code := [.resourceExhausted, .internal, .unavailable]

/-- Whether the adapter's retry policy classifies `e` as retryable (the
Boolean component of `Retry`, which does not depend on the backoff
pause; 20 ms is the initial backoff). -/
def isRetryableErr (e : StatusErr) : Bool :=
  (adapterRetryerRetry adapterRetryCodes 20000000 e).2

/-- The retry classification exactly as claim C5 words it: INTERNAL
retryable only when the text contains none of the four signatures. -/
def retryClassificationClaimSide (e : StatusErr) : Bool :=
  e.code == .resourceExhausted || e.code == .unavailable ||
    (e.code == .internal
      && !(strContainsSub e.text sigRstStream)
      && !(strContainsSub e.text sigHttp2Internal)
      && !(strContainsSub e.text sigConnClosed)
      && !(strContainsSub e.text sigEosData))

/-- C5 counterexample: an INTERNAL error whose text is exactly the
RST_STREAM stream-termination signature IS retried by the code, while
the claim classifies it as terminal. -/
theorem retry_internal_signature_counterexample :
    isRetryableErr ⟨.internal, sigRstStream, none⟩ = true ∧
      retryClassificationClaimSide ⟨.internal, sigRstStream, none⟩ = false := by
  constructor <;> decide

/-- C5 (amended): the retry policy classifies status errors as retryable
exactly for RESOURCE_EXHAUSTED, UNAVAILABLE, and INTERNAL whose error
text contains at least one of the four stream-termination signatures;
INTERNAL errors matching none of the signatures are terminal. -/
theorem retry_classification (e : StatusErr) :
    isRetryableErr e =
      (e.code == .resourceExhausted || e.code == .unavailable ||
        (e.code == .internal &&
          (strContainsSub e.text sigRstStream ||
           strContainsSub e.text sigHttp2Internal ||
           strContainsSub e.text sigConnClosed ||
           strContainsSub e.text sigEosData))) := by
  rcases e with ⟨c, t, d⟩
  cases hA : strContainsSub t sigRstStream <;>
    cases hB : strContainsSub t sigHttp2Internal <;>
      cases hC : strContainsSub t sigConnClosed <;>
        cases hD : strContainsSub t sigEosData <;>
          cases d <;>
            cases c <;>
              simp [isRetryableErr, adapterRetryerRetry, gaxOnCodesShouldRetry,
                adapterRetryCodes, hA, hB, hC, hD]

/-! ## Protocol adapter (gocql.go) -/

/-- Models `cassandraProtocol.ExtractKeys` (gocql.go), with Go's implicit
bounds checks made explicit: `payload[4]` panics unless the payload has
at least 5 bytes, `binary.BigEndian.Uint16(payload[9:11])` panics unless
it has at least 11, and `payload[11 : 11+idLen]` panics unless it has at
least `11 + idLen`.  A Go panic is modelled as `none`; the source
carries a `TODO: Bounds check` comment on this path. -/
def ExtractKeys (payload : Bytes) : Option (List Bytes) :=
  if h4 : 4 < payload.length then
    if payload.get ⟨4, h4⟩ ≠ 0x0A then some []
    else if 11 ≤ payload.length then
      let idLen := 256 * payload.getD 9 0 + payload.getD 10 0
      if 11 + idLen ≤ payload.length then
        some [(payload.drop 11).take idLen]
      else none
    else none
  else none

/-- C7: the EXECUTE-id extraction is not total.  On the 11-byte payload
whose opcode byte (offset 4) is 0x0A and whose declared id length is 5,
the code slices `payload[11:16]` beyond the payload's end and panics
(modelled as `none`) instead of returning the id bytes; the empty
payload already panics on the `payload[4]` access. -/
theorem extractKeys_not_total :
    ExtractKeys [0, 0, 0, 0, 0x0A, 0, 0, 0, 0, 0, 5] = none ∧
      ExtractKeys [] = none := by
  constructor <;> decide

/-! ## Logger and launcher (logger.go, cassandra_launcher.go) -/

/-- Modelled from the spec: validation of the `-log` value is delegated
to the logging dependency's `Level.Set`, whose sources are not included;
the spec lists the accepted names as `debug|info|warn|error|fatal`. -/
def acceptedLogLevels : List Str :=
  ["debug".toList, "info".toList, "warn".toList, "error".toList,
    "fatal".toList]

/-- Models `SetupGlobalLogger` (logger.go): the level defaults to info; an
empty level string is not parsed; a non-empty level string that fails to
parse is returned as an error. -/
def SetupGlobalLogger (level : Str) : Except Str Str :=
  if level = [] then .ok "info".toList
  else if acceptedLogLevels.contains level then .ok level
  else .error ("invalid log level ".toList ++ level)

/-- How a standalone launcher run can end. -/
inductive LaunchResult where
  | exited (code : Nat)
  | panicked (msg : Str)
  | started (level : Str)
  deriving DecidableEq

/-- Models `main` (cassandra_launcher.go) together with `NewCluster` (gocql.go):
an empty `-db` flag prints usage and calls `os.Exit(1)`; otherwise
`NewCluster` runs `SetupGlobalLogger` and calls `panic(err)` when it
fails (the Go runtime then aborts with the panic exit status; `main`
never calls `os.Exit` for a log-level failure); otherwise the proxy
starts and blocks for a signal. -/
def launcherMain (db logLevel : Str) : LaunchResult :=
  if db = [] then .exited 1
  else
    match SetupGlobalLogger logLevel with
    | .error e => .panicked e
    | .ok lvl => .started lvl

/-- C8 counterexample: with a database URI supplied and `-log bogus`,
the process does not exit with code 1; `NewCluster` panics on the
`SetupGlobalLogger` error. -/
theorem launcher_invalid_log_counterexample :
    launcherMain "projects/p".toList "bogus".toList ≠ .exited 1 ∧
      launcherMain "projects/p".toList "bogus".toList =
        .panicked ("invalid log level ".toList ++ "bogus".toList) := by
  constructor <;> decide

/-- C8 (amended): log-level validation accepts debug|info|warn|error|
fatal, with the empty string defaulting to info; any other `-log` value
causes startup to fail, but by a panic raised in `NewCluster`, not by an
exit with code 1 — exit code 1 is produced only for the missing required
`-db` flag. -/
theorem launcher_log_level_contract (db lvl : Str) :
    (db = [] → launcherMain db lvl = .exited 1) ∧
    (db ≠ [] → lvl = [] → launcherMain db lvl = .started "info".toList) ∧
    (db ≠ [] → acceptedLogLevels.contains lvl = true →
      launcherMain db lvl = .started lvl) ∧
    (db ≠ [] → lvl ≠ [] → acceptedLogLevels.contains lvl = false →
      ∃ e, launcherMain db lvl = .panicked e) := by
  refine ⟨fun hdb => ?_, fun hdb hl => ?_, fun hdb hacc => ?_,
    fun hdb hl hacc => ?_⟩
  · simp [launcherMain, hdb]
  · simp [launcherMain, SetupGlobalLogger, hdb, hl]
  · have hl : lvl ≠ [] := by
      intro h
      rw [h] at hacc
      exact absurd hacc (by decide)
    have hmem : lvl ∈ acceptedLogLevels := by simpa using hacc
    simp [launcherMain, SetupGlobalLogger, hdb, hl, hmem]
  · have hmem : lvl ∉ acceptedLogLevels := by simpa using hacc
    exact ⟨"invalid log level ".toList ++ lvl,
      by simp [launcherMain, SetupGlobalLogger, hdb, hl, hmem]⟩

/-- Witness for `launcher_log_level_contract`: a valid database URI with
`-log debug` starts the proxy at level debug. -/
theorem launcher_log_level_contract_witness :
    launcherMain "projects/p".toList "debug".toList =
      .started "debug".toList :=
  (launcher_log_level_contract "projects/p".toList "debug".toList).2.2.1
    (by decide) (by decide)
